import Mathlib

/-!
Shallow embedding of `src/rsstotelegram.py`: an RSS-to-Telegram forwarder.

The program keeps a mapping `last_entries` from feed URL to the last seen
entry link (a Python dict whose values may be `None`), primes it once at
startup, and then polls each feed forever, sending a Telegram message and
persisting the mapping when the newest entry's link differs from the stored
one.

Python objects are rendered as follows: a feedparser entry/feed is a
structure of `Option`-valued fields, where `none` means the attribute is
absent (so a direct attribute access such as `latest_entry.link` raises
`AttributeError` when the field is `none`, modelled as `Except.error ()`);
`getattr(x, f, d)` is `Option.getD`; the `last_entries` dict is an
association list whose values are `Option String` (`None` is storable);
`dict.get` returns `None` both for a missing key and for a stored `None`.
Network effects are parameters: the outcome of `feedparser.parse` is a
`FetchOutcome` (an exception or a parsed feed) and the boolean result of
`send_telegram_message` is passed in (the polling loop ignores it).
Observable side effects (message sends, dict writes, `save_last_entries`
calls) are recorded as a trace of `Event`s.
-/

/-- One element of a feedparser entry's `links` list: a dict with optional
`rel`, `type` and `href` keys (`link.get('rel')` etc.). -/
structure Link where
  rel : Option String
  type : Option String
  href : Option String
  deriving DecidableEq, Repr

/-- One element of an entry's `authors` list: a dict with an optional `name`. -/
structure Author where
  name : Option String
  deriving DecidableEq, Repr

/-- One element of an entry's `content` list: a dict with an optional `value`. -/
structure ContentItem where
  value : Option String
  deriving DecidableEq, Repr

/-- A feedparser entry. `none` in a field means the attribute is absent. -/
structure Entry where
  title : Option String
  link : Option String
  links : List Link
  author : Option String
  authors : List Author
  summary : Option String
  content : List ContentItem
  description : Option String
  published : Option String
  updated : Option String
  deriving DecidableEq, Repr

/-- A parsed feed document: optional `title`, the `bozo` flag, and the
ordered `entries` list. -/
structure Feed where
  title : Option String
  bozo : Bool
  entries : List Entry
  deriving DecidableEq, Repr

/-- The outcome of `feedparser.parse(feed_url)`: either a raised exception or
a parsed feed document. -/
inductive FetchOutcome where
  | exn
  | ok (feed : Feed)
  deriving DecidableEq, Repr

/-- `get_feed_and_latest_item`: on an exception returns `(None, None)`;
otherwise returns the feed together with `feed.entries[0]` when entries
exist, else `(feed, None)`. (The bozo flag is only logged.) -/
def get_feed_and_latest_item : FetchOutcome → Option Feed × Option Entry
  | FetchOutcome.exn => (none, none)
  | FetchOutcome.ok f => (some f, f.entries.head?)

/-- The in-memory `last_entries` dict: feed URL to last seen link or `None`. -/
abbrev LastEntries := List (String × Option String)

/-- Raw dict lookup: `some v` when the key is present with value `v`
(where `v` itself may be `none`, i.e. Python `None`), `none` when absent. -/
def dictLookup : LastEntries → String → Option (Option String)
  | [], _ => none
  | (k, v) :: rest, key => if k = key then some v else dictLookup rest key

/-- `last_entries.get(feed_url)`: Python returns `None` both when the key is
missing and when the stored value is `None`. -/
def dictGet (m : LastEntries) (key : String) : Option String :=
  (dictLookup m key).getD none

/-- `last_entries[feed_url] = v`: overwrite in place, or append a new binding. -/
def dictSet : LastEntries → String → Option String → LastEntries
  | [], key, v => [(key, v)]
  | (k, w) :: rest, key, v =>
      if k = key then (k, v) :: rest else (k, w) :: dictSet rest key v

/-- `load_last_entries`, with the file system abstracted: `none` means the
state file does not exist, `some none` means it exists but `json.load`
raises `JSONDecodeError`, `some (some m)` means it parses to the mapping
`m`. The function never raises: both failure shapes yield the empty dict. -/
def load_last_entries : Option (Option LastEntries) → LastEntries
  | none => []
  | some none => []
  | some (some m) => m

/-- `getattr(feed_obj, 'title', feed_name_from_config)` where `feed_obj` may
be `None` (then `getattr` returns the default). -/
def feed_title_display (feedObj : Option Feed) (nameFromConfig : String) : String :=
  match feedObj with
  | some f => f.title.getD nameFromConfig
  | none => nameFromConfig

/-- The `for link in entry.links` loop body: the first link whose `rel` is
`'alternate'` and whose `type` is `'text/html'` gives `link.get('href')`
(which may itself be `None`, in which case the caller falls through). -/
def firstAltHtml : List Link → Option String
  | [] => none
  | l :: ls =>
      if l.rel = some "alternate" ∧ l.type = some "text/html" then l.href
      else firstAltHtml ls

/-- The `entry_url` computation of `format_feed_message`: the direct `link`
attribute if present; otherwise the first alternate text/html link's href;
otherwise the first link's href (default `'No Link'`); otherwise `'No Link'`. -/
def entry_url (e : Entry) : String :=
  match e.link with
  | some u => u
  | none =>
    match e.links with
    | [] => "No Link"
    | l0 :: _ =>
      match firstAltHtml e.links with
      | some h => h
      | none => l0.href.getD "No Link"

/-- The `entry_author` computation: `getattr(entry, 'author', 'N/A')`, and if
that equals `'N/A'` and `entry.authors` is nonempty, the first author's
`name` (default `'N/A'`). -/
def entry_author (e : Entry) : String :=
  let a := e.author.getD "N/A"
  if a = "N/A" then
    match e.authors with
    | au :: _ => au.name.getD "N/A"
    | [] => a
  else a

/-- Python truthiness of an optional string attribute: present and nonempty. -/
def truthyStr : Option String → Bool
  | some s => s ≠ ""
  | none => false

/-- The `entry_content` computation: the entry's nonempty `summary`, else
`content[0].get('value', 'No Content Preview')` when `content` is nonempty,
else a nonempty `description`, else `'No Content Preview'`. -/
def entry_content (e : Entry) : String :=
  if truthyStr e.summary then e.summary.getD ""
  else
    match e.content with
    | c :: _ => c.value.getD "No Content Preview"
    | [] =>
      if truthyStr e.description then e.description.getD ""
      else "No Content Preview"

/-- The `entry_published` computation: `getattr(entry, 'published', None)`,
falling back to `getattr(entry, 'updated', 'N/A')`. -/
def entry_published (e : Entry) : String :=
  match e.published with
  | some p => p
  | none => e.updated.getD "N/A"

/-- Character-level rendering of
`.replace('<', '&lt;').replace('>', '&gt;')`: the first replacement
introduces no `>` and the second no `<`, so the two sequential full-string
replacements act independently on each character. -/
def escapeChar (c : Char) : List Char :=
  if c = '<' then ['&', 'l', 't', ';']
  else if c = '>' then ['&', 'g', 't', ';']
  else [c]

/-- `s.replace('<', '&lt;').replace('>', '&gt;')` as a character map. -/
def escapeAngles (s : String) : String :=
  String.mk (s.toList.flatMap escapeChar)

/-- `entry_content[:200].replace('<', '&lt;').replace('>', '&gt;')`:
truncate to the first 200 characters, then escape angle brackets. -/
def contentPreview (e : Entry) : String :=
  escapeAngles ((entry_content e).take 200)

/-- The part of `message_text` before the content preview. -/
def messageHeader (nameFromConfig : String) (feedObj : Option Feed) (e : Entry) : String :=
  "<b>📢 New from " ++ feed_title_display feedObj nameFromConfig ++ ":</b>\n\n" ++
  "<b>Title:</b> " ++ (e.title.getD "No Title") ++ "\n" ++
  "<b>Author:</b> " ++ entry_author e ++ "\n" ++
  "<b>Published:</b> " ++ entry_published e ++ "\n" ++
  "<b>Link:</b> <a href='" ++ entry_url e ++ "'>" ++ entry_url e ++ "</a>\n" ++
  "<b>Content Preview:</b> "

/-- `format_feed_message(feed_name_from_config, feed_obj, entry)`. -/
def format_feed_message (nameFromConfig : String) (feedObj : Option Feed) (e : Entry) : String :=
  messageHeader nameFromConfig feedObj e ++ contentPreview e ++ "..."

/-- Observable side effects of the main loop: a Telegram send, a write of
one key of `last_entries`, and a `save_last_entries()` call. -/
inductive Event where
  | send (msg : String)
  | update (url : String) (v : Option String)
  | save
  deriving DecidableEq, Repr

/-- Whether an event is a `save_last_entries()` call. -/
def isSave : Event → Bool
  | Event.save => true
  | _ => false

/-- Whether an event is a Telegram message send. -/
def isSend : Event → Bool
  | Event.send _ => true
  | _ => false

/-- Whether an event is a write of one key of `last_entries`. -/
def isUpdate : Event → Bool
  | Event.update _ _ => true
  | _ => false

/-- One feed's entry in the `RSS_FEEDS` configuration list. -/
structure FeedCfg where
  name : String
  url : String
  deriving DecidableEq, Repr

/-- The body of the polling loop's new-item branch: print the entry title
(an unguarded `latest_entry.title` access), format and send the message
(result ignored), then `last_entries[feed_url] = latest_entry.link` (an
unguarded `.link` access) and `save_last_entries()`. -/
def pollAnnounce (nameFromConfig url : String) (feedObj : Option Feed) (e : Entry)
    (st : LastEntries) : Except Unit (LastEntries × List Event) :=
  match e.title with
  | none => Except.error ()
  | some _ =>
    match e.link with
    | none => Except.error ()
    | some l =>
      Except.ok (dictSet st url (some l),
        [Event.send (format_feed_message nameFromConfig feedObj e),
         Event.update url (some l), Event.save])

/-- One feed's step of the polling loop. `sendOk` is the boolean result of
`send_telegram_message`; the loop never inspects it. When the fetch yields
no entry the feed is skipped; otherwise the newest link is compared with
`last_entries.get(feed_url)` (the comparison reads `latest_entry.link`
unguardedly when a stored value is present). -/
def pollFeed (sendOk : Bool) (fetched : FetchOutcome) (nameFromConfig url : String)
    (st : LastEntries) : Except Unit (LastEntries × List Event) :=
  let fl := get_feed_and_latest_item fetched
  match fl.2 with
  | none => Except.ok (st, [])
  | some e =>
    match dictGet st url, e.link with
    | some _, none => Except.error ()
    | some c, some l =>
        if l = c then Except.ok (st, [])
        else pollAnnounce nameFromConfig url fl.1 e st
    | none, _ => pollAnnounce nameFromConfig url fl.1 e st

/-- One feed's step of the startup-confirmation (priming) pass: when an entry
exists, send the confirmation message and record
`last_entries[feed_url] = latest_entry.link` (an unguarded `.link` access);
otherwise record an explicit `None` baseline. No save happens here. -/
def primeFeed (sendOk : Bool) (fetched : FetchOutcome) (nameFromConfig url : String)
    (st : LastEntries) : Except Unit (LastEntries × List Event) :=
  let fl := get_feed_and_latest_item fetched
  match fl.2 with
  | some e =>
    match e.link with
    | none => Except.error ()
    | some l =>
      Except.ok (dictSet st url (some l),
        [Event.send ("<b>[Startup Confirmation] Latest from " ++ nameFromConfig ++
            ":</b>\n\n" ++ format_feed_message nameFromConfig fl.1 e),
         Event.update url (some l)])
  | none => Except.ok (dictSet st url none, [Event.update url none])

/-- The priming `for feed_config in RSS_FEEDS` loop, returning the final
dict and one event segment per feed. -/
def primeAllFeeds (sendF : String → Bool) (fetchF : String → FetchOutcome) :
    List FeedCfg → LastEntries → Except Unit (LastEntries × List (List Event))
  | [], st => Except.ok (st, [])
  | c :: rest, st =>
    match primeFeed (sendF c.url) (fetchF c.url) c.name c.url st with
    | Except.error e => Except.error e
    | Except.ok (st1, evs) =>
      match primeAllFeeds sendF fetchF rest st1 with
      | Except.error e => Except.error e
      | Except.ok (st2, segs) => Except.ok (st2, evs :: segs)

/-- The whole priming pass: the per-feed loop followed by the single
`save_last_entries()` call that sits after the loop. -/
def primeRun (sendF : String → Bool) (fetchF : String → FetchOutcome)
    (cfgs : List FeedCfg) (st : LastEntries) :
    Except Unit (LastEntries × List (List Event)) :=
  match primeAllFeeds sendF fetchF cfgs st with
  | Except.error e => Except.error e
  | Except.ok (st1, segs) => Except.ok (st1, segs ++ [[Event.save]])

/-- One full cycle of the main polling loop over the configured feeds,
returning the final dict and one event segment per feed. -/
def pollCycle (sendF : String → Bool) (fetchF : String → FetchOutcome) :
    List FeedCfg → LastEntries → Except Unit (LastEntries × List (List Event))
  | [], st => Except.ok (st, [])
  | c :: rest, st =>
    match pollFeed (sendF c.url) (fetchF c.url) c.name c.url st with
    | Except.error e => Except.error e
    | Except.ok (st1, evs) =>
      match pollCycle sendF fetchF rest st1 with
      | Except.error e => Except.error e
      | Except.ok (st2, segs) => Except.ok (st2, evs :: segs)

/-- Every dict write in the event list is eventually followed, within the
same list, by a `save_last_entries()` call. -/
def updatesSaved : List Event → Bool
  | [] => true
  | Event.update _ _ :: rest => rest.contains Event.save && updatesSaved rest
  | _ :: rest => updatesSaved rest

/-- The events of a step, empty when the step raised. -/
def eventsOf : Except Unit (LastEntries × List Event) → List Event
  | Except.ok (_, evs) => evs
  | Except.error _ => []

/-! ### Concrete fixtures for witnesses and counterexamples -/

/-- An entry with every attribute absent. -/
def emptyEntry : Entry := ⟨none, none, [], none, [], none, [], none, none, none⟩

/-- An entry whose direct link is `http://a/2`. -/
def entryB : Entry :=
  { emptyEntry with title := some "T2", link := some "http://a/2", summary := some "second post" }

/-- A feed whose newest entry is `entryB`. -/
def feedB : Feed := ⟨some "Feed A", false, [entryB]⟩

/-- An entry with no direct link but an alternate text/html link. -/
def entryAlt : Entry :=
  { emptyEntry with
    title := some "TA"
    links := [⟨some "alternate", some "text/html", some "http://x/alt"⟩] }

/-- A feed whose newest entry is `entryAlt`. -/
def feedAlt : Feed := ⟨some "Feed X", false, [entryAlt]⟩

/-- Priming fixture: first feed of a two-feed configuration. -/
def entryP1 : Entry := { emptyEntry with title := some "P1", link := some "http://p/1" }

/-- Priming fixture: second feed of a two-feed configuration. -/
def entryQ1 : Entry := { emptyEntry with title := some "Q1", link := some "http://q/1" }

/-- Feed for `entryP1`. -/
def feedP : Feed := ⟨some "P", false, [entryP1]⟩

/-- Feed for `entryQ1`. -/
def feedQ : Feed := ⟨some "Q", false, [entryQ1]⟩

/-- Fetch environment returning `feedP` at `http://p` and `feedQ` elsewhere. -/
def fetchPQ : String → FetchOutcome :=
  fun u => if u = "http://p" then FetchOutcome.ok feedP else FetchOutcome.ok feedQ

/-- Two-feed configuration list. -/
def cfgPQ : List FeedCfg := [⟨"P", "http://p"⟩, ⟨"Q", "http://q"⟩]

/-- A 201-character summary made of `<` characters. -/
def longSummary : String := String.mk (List.replicate 201 '<')

/-- An entry whose content preview source text is 201 characters long. -/
def entryLong : Entry := { emptyEntry with summary := some longSummary }

/-- A feed with no entries. -/
def feedEmpty : Feed := ⟨some "Empty", false, []⟩

/-- An entry used for the post-priming polling fixture. -/
def entryN : Entry := { emptyEntry with title := some "TN", link := some "http://n/1" }

/-- Feed for `entryN`. -/
def feedN : Feed := ⟨some "N", false, [entryN]⟩

/-- Fetch environment in which `http://p` raises and other urls yield `feedQ`. -/
def fetchExnP : String → FetchOutcome :=
  fun u => if u = "http://p" then FetchOutcome.exn else FetchOutcome.ok feedQ

/-! ### Helper lemmas -/

theorem dictGet_dictSet (m : LastEntries) (k : String) (v : Option String) :
    dictGet (dictSet m k v) k = v := by
  induction m with
  | nil => simp [dictSet, dictGet, dictLookup]
  | cons p rest ih =>
    obtain ⟨a, b⟩ := p
    by_cases h : a = k
    · simp [dictSet, dictGet, dictLookup, h]
    · simpa [dictSet, dictGet, dictLookup, h] using ih

theorem pollAnnounce_ok (nameFromConfig url : String) (feedObj : Option Feed) (e : Entry)
    (st : LastEntries) (l t : String) (hl : e.link = some l) (ht : e.title = some t) :
    pollAnnounce nameFromConfig url feedObj e st =
      Except.ok (dictSet st url (some l),
        [Event.send (format_feed_message nameFromConfig feedObj e),
         Event.update url (some l), Event.save]) := by
  simp [pollAnnounce, hl, ht]

theorem pollFeed_new (sendOk : Bool) (f : Feed) (e : Entry) (nameFromConfig url l t : String)
    (st : LastEntries) (he : f.entries.head? = some e) (hl : e.link = some l)
    (ht : e.title = some t)
    (hnew : dictGet st url = none ∨ ∃ c, dictGet st url = some c ∧ l ≠ c) :
    pollFeed sendOk (FetchOutcome.ok f) nameFromConfig url st =
      Except.ok (dictSet st url (some l),
        [Event.send (format_feed_message nameFromConfig (some f) e),
         Event.update url (some l), Event.save]) := by
  rcases hnew with h | ⟨c, hc, hne⟩
  · simp [pollFeed, get_feed_and_latest_item, he, h, pollAnnounce, hl, ht]
  · simp [pollFeed, get_feed_and_latest_item, he, hc, hl, hne, pollAnnounce, ht]

theorem pollFeed_same (sendOk : Bool) (f : Feed) (e : Entry) (nameFromConfig url l : String)
    (st : LastEntries) (he : f.entries.head? = some e) (hl : e.link = some l)
    (hc : dictGet st url = some l) :
    pollFeed sendOk (FetchOutcome.ok f) nameFromConfig url st = Except.ok (st, []) := by
  simp [pollFeed, get_feed_and_latest_item, he, hl, hc]

theorem pollFeed_link_absent (sendOk : Bool) (f : Feed) (e : Entry) (nameFromConfig url : String)
    (st : LastEntries) (he : f.entries.head? = some e) (hl : e.link = none) :
    pollFeed sendOk (FetchOutcome.ok f) nameFromConfig url st = Except.error () := by
  cases hg : dictGet st url with
  | some c => simp [pollFeed, get_feed_and_latest_item, he, hl, hg]
  | none =>
    cases ht : e.title with
    | none => simp [pollFeed, get_feed_and_latest_item, he, hg, pollAnnounce, ht]
    | some t => simp [pollFeed, get_feed_and_latest_item, he, hg, pollAnnounce, ht, hl]

theorem pollFeed_stored (sendOk : Bool) (f : Feed) (e : Entry) (nameFromConfig url l : String)
    (st st1 : LastEntries) (evs : List Event)
    (he : f.entries.head? = some e) (hl : e.link = some l)
    (h1 : pollFeed sendOk (FetchOutcome.ok f) nameFromConfig url st = Except.ok (st1, evs)) :
    dictGet st1 url = some l := by
  cases hg : dictGet st url with
  | none =>
    cases ht : e.title with
    | none =>
      simp [pollFeed, get_feed_and_latest_item, he, hg, pollAnnounce, ht] at h1
    | some t =>
      simp [pollFeed, get_feed_and_latest_item, he, hg, pollAnnounce, ht, hl] at h1
      rw [← h1.1, dictGet_dictSet]
  | some c =>
    by_cases hlc : l = c
    · subst hlc
      simp [pollFeed, get_feed_and_latest_item, he, hl, hg] at h1
      rw [← h1.1]
      exact hg
    · cases ht : e.title with
      | none =>
        simp [pollFeed, get_feed_and_latest_item, he, hl, hg, hlc, pollAnnounce, ht] at h1
      | some t =>
        simp [pollFeed, get_feed_and_latest_item, he, hl, hg, hlc, pollAnnounce, ht] at h1
        rw [← h1.1, dictGet_dictSet]

theorem primeFeed_no_entry (sendOk : Bool) (fo : FetchOutcome) (nameFromConfig url : String)
    (st : LastEntries) (hno : (get_feed_and_latest_item fo).2 = none) :
    primeFeed sendOk fo nameFromConfig url st =
      Except.ok (dictSet st url none, [Event.update url none]) := by
  simp [primeFeed, hno]

theorem primeFeed_entry (sendOk : Bool) (f : Feed) (e : Entry) (nameFromConfig url l : String)
    (st : LastEntries) (he : f.entries.head? = some e) (hl : e.link = some l) :
    primeFeed sendOk (FetchOutcome.ok f) nameFromConfig url st =
      Except.ok (dictSet st url (some l),
        [Event.send ("<b>[Startup Confirmation] Latest from " ++ nameFromConfig ++
            ":</b>\n\n" ++ format_feed_message nameFromConfig (some f) e),
         Event.update url (some l)]) := by
  simp [primeFeed, get_feed_and_latest_item, he, hl]

theorem primeFeed_link_absent (sendOk : Bool) (f : Feed) (e : Entry) (nameFromConfig url : String)
    (st : LastEntries) (he : f.entries.head? = some e) (hl : e.link = none) :
    primeFeed sendOk (FetchOutcome.ok f) nameFromConfig url st = Except.error () := by
  simp [primeFeed, get_feed_and_latest_item, he, hl]

theorem primeFeed_saveCount (sendOk : Bool) (fo : FetchOutcome) (nameFromConfig url : String)
    (st st1 : LastEntries) (evs : List Event)
    (h : primeFeed sendOk fo nameFromConfig url st = Except.ok (st1, evs)) :
    evs.countP isSave = 0 := by
  cases hfl : (get_feed_and_latest_item fo).2 with
  | none =>
    simp [primeFeed, hfl] at h
    rw [← h.2]
    rfl
  | some e =>
    cases hl : e.link with
    | none => simp [primeFeed, hfl, hl] at h
    | some l =>
      simp [primeFeed, hfl, hl] at h
      rw [← h.2]
      rfl

theorem primeAllFeeds_saveCount (sendF : String → Bool) (fetchF : String → FetchOutcome)
    (cfgs : List FeedCfg) (st st1 : LastEntries) (segs : List (List Event))
    (h : primeAllFeeds sendF fetchF cfgs st = Except.ok (st1, segs)) :
    (segs.map (fun s => s.countP isSave)).sum = 0 := by
  induction cfgs generalizing st st1 segs with
  | nil =>
    simp [primeAllFeeds] at h
    rw [h.2]
    rfl
  | cons c rest ih =>
    cases h1 : primeFeed (sendF c.url) (fetchF c.url) c.name c.url st with
    | error e => simp [primeAllFeeds, h1] at h
    | ok p =>
      obtain ⟨stm, evs⟩ := p
      cases h2 : primeAllFeeds sendF fetchF rest stm with
      | error e => simp [primeAllFeeds, h1, h2] at h
      | ok q =>
        obtain ⟨st2, segs2⟩ := q
        simp [primeAllFeeds, h1, h2] at h
        rw [← h.2]
        simp [primeFeed_saveCount _ _ _ _ _ _ _ h1, ih _ _ _ h2]

theorem pollFeed_updatesSaved (sendOk : Bool) (fo : FetchOutcome) (nameFromConfig url : String)
    (st st1 : LastEntries) (evs : List Event)
    (h : pollFeed sendOk fo nameFromConfig url st = Except.ok (st1, evs)) :
    updatesSaved evs = true := by
  cases hfl : (get_feed_and_latest_item fo).2 with
  | none =>
    simp [pollFeed, hfl] at h
    rw [h.2]
    rfl
  | some e =>
    cases hg : dictGet st url with
    | none =>
      cases ht : e.title with
      | none => simp [pollFeed, hfl, hg, pollAnnounce, ht] at h
      | some t =>
        cases hl : e.link with
        | none => simp [pollFeed, hfl, hg, pollAnnounce, ht, hl] at h
        | some l =>
          simp [pollFeed, hfl, hg, pollAnnounce, ht, hl] at h
          rw [← h.2]
          rfl
    | some c =>
      cases hl : e.link with
      | none => simp [pollFeed, hfl, hg, hl] at h
      | some l =>
        by_cases hlc : l = c
        · simp [pollFeed, hfl, hg, hl, hlc] at h
          rw [h.2]
          rfl
        · cases ht : e.title with
          | none => simp [pollFeed, hfl, hg, hl, hlc, pollAnnounce, ht] at h
          | some t =>
            simp [pollFeed, hfl, hg, hl, hlc, pollAnnounce, ht] at h
            rw [← h.2]
            rfl

theorem flatMap_escapeChar_all (l : List Char) :
    (l.flatMap escapeChar).all (fun c => c != '<' && c != '>') = true := by
  induction l with
  | nil => rfl
  | cons c l ih =>
    simp only [List.flatMap_cons, List.all_append, ih, Bool.and_true]
    by_cases h1 : c = '<'
    · simp [escapeChar, h1]
    · by_cases h2 : c = '>'
      · simp [escapeChar, h1, h2]
      · simp [escapeChar, h1, h2]

theorem string_take_length_of_lt (s : String) (h : 200 < s.length) :
    (s.take 200).length = 200 := by
  rw [← String.length_data, String.data_take, List.length_take]
  rw [← String.length_data] at h
  exact inf_eq_left.mpr (Nat.le_of_lt h)

theorem string_take_of_le (s : String) (h : s.length ≤ 200) : s.take 200 = s := by
  apply String.ext
  rw [String.data_take]
  apply List.take_of_length_le
  rw [String.length_data]
  exact h

/-! ### Claim theorems -/

/-- C1 counterexample: with a stored identifier `http://a/1`, a fetched newest
item `http://a/2`, and a failing send (`sendOk = false`), the polling step
still rewrites the stored identifier to `http://a/2` and still calls
`save_last_entries()` once — the claim that delivery failure suppresses the
state update is false at this input. -/
theorem pollFeed_send_failure_cex :
    (pollFeed false (FetchOutcome.ok feedB) "Feed1" "http://a"
        [("http://a", some "http://a/1")]).map
      (fun p => (p.1, p.2.countP isSave, p.2.countP isSend))
      = Except.ok ([("http://a", some "http://a/2")], 1, 1) := by
  rfl

/-- C1 (amended): the polling loop ignores the result of
`send_telegram_message`; on a changed newest identifier it updates the stored
identifier and saves the state file whether or not delivery succeeded, so a
failed delivery is never retried. -/
theorem pollFeed_ignores_send_result (f : Feed) (e : Entry)
    (nameFromConfig url l t c : String) (st : LastEntries)
    (he : f.entries.head? = some e) (hl : e.link = some l) (ht : e.title = some t)
    (hc : dictGet st url = some c) (hne : l ≠ c) :
    pollFeed false (FetchOutcome.ok f) nameFromConfig url st
      = pollFeed true (FetchOutcome.ok f) nameFromConfig url st
    ∧ pollFeed false (FetchOutcome.ok f) nameFromConfig url st
      = Except.ok (dictSet st url (some l),
          [Event.send (format_feed_message nameFromConfig (some f) e),
           Event.update url (some l), Event.save])
    ∧ dictGet (dictSet st url (some l)) url = some l := by
  refine ⟨rfl, ?_, dictGet_dictSet st url (some l)⟩
  exact pollFeed_new false f e nameFromConfig url l t st he hl ht (Or.inr ⟨c, hc, hne⟩)

/-- C1 amended witness: the amended statement at the concrete counterexample
input. -/
theorem pollFeed_ignores_send_result_witness :
    pollFeed false (FetchOutcome.ok feedB) "Feed1" "http://a"
        [("http://a", some "http://a/1")]
      = pollFeed true (FetchOutcome.ok feedB) "Feed1" "http://a"
        [("http://a", some "http://a/1")]
    ∧ pollFeed false (FetchOutcome.ok feedB) "Feed1" "http://a"
        [("http://a", some "http://a/1")]
      = Except.ok (dictSet [("http://a", some "http://a/1")] "http://a" (some "http://a/2"),
          [Event.send (format_feed_message "Feed1" (some feedB) entryB),
           Event.update "http://a" (some "http://a/2"), Event.save])
    ∧ dictGet (dictSet [("http://a", some "http://a/1")] "http://a" (some "http://a/2"))
        "http://a" = some "http://a/2" :=
  pollFeed_ignores_send_result feedB entryB "Feed1" "http://a" "http://a/2" "T2"
    "http://a/1" [("http://a", some "http://a/1")] rfl rfl rfl rfl (by decide)

/-- C2: with stored identifier `c` and a fetched newest identifier `l ≠ c`
(or no stored identifier at all), the polling step sends exactly one
notification and the stored identifier afterwards equals `l`. -/
theorem pollFeed_change_detection (sendOk : Bool) (f : Feed) (e : Entry)
    (nameFromConfig url l t : String) (st : LastEntries)
    (he : f.entries.head? = some e) (hl : e.link = some l) (ht : e.title = some t)
    (hnew : dictGet st url = none ∨ ∃ c, dictGet st url = some c ∧ l ≠ c) :
    pollFeed sendOk (FetchOutcome.ok f) nameFromConfig url st
      = Except.ok (dictSet st url (some l),
          [Event.send (format_feed_message nameFromConfig (some f) e),
           Event.update url (some l), Event.save])
    ∧ [Event.send (format_feed_message nameFromConfig (some f) e),
       Event.update url (some l), Event.save].countP isSend = 1
    ∧ dictGet (dictSet st url (some l)) url = some l :=
  ⟨pollFeed_new sendOk f e nameFromConfig url l t st he hl ht hnew, rfl,
   dictGet_dictSet st url (some l)⟩

/-- C2 witness: change detection at a concrete input with no stored baseline. -/
theorem pollFeed_change_detection_witness :
    pollFeed true (FetchOutcome.ok feedB) "Feed1" "http://a" []
      = Except.ok (dictSet [] "http://a" (some "http://a/2"),
          [Event.send (format_feed_message "Feed1" (some feedB) entryB),
           Event.update "http://a" (some "http://a/2"), Event.save])
    ∧ [Event.send (format_feed_message "Feed1" (some feedB) entryB),
       Event.update "http://a" (some "http://a/2"), Event.save].countP isSend = 1
    ∧ dictGet (dictSet [] "http://a" (some "http://a/2")) "http://a" = some "http://a/2" :=
  pollFeed_change_detection true feedB entryB "Feed1" "http://a" "http://a/2" "T2" []
    rfl rfl rfl (Or.inl rfl)

/-- C3 counterexample: `entryAlt` has no direct link but carries an alternate
text/html link with href `http://x/alt`. The formatting fallback resolves
that href, but the identifier path of the polling step (the unguarded
`latest_entry.link` read) raises instead of resolving it — with or without a
stored baseline — so the value compared against and written into the state
store never falls back to the alternate href. -/
theorem identifier_fallback_cex :
    entry_url entryAlt = "http://x/alt"
    ∧ pollFeed true (FetchOutcome.ok feedAlt) "Feed X" "http://x"
        [("http://x", some "old")] = Except.error ()
    ∧ pollFeed true (FetchOutcome.ok feedAlt) "Feed X" "http://x" [] = Except.error () :=
  ⟨rfl, rfl, rfl⟩

/-- C3 (amended): the alternate-link fallback chain applies only to the link
rendered in the formatted message (`entry_url`): there it resolves to the
alternate text/html href, else the first link's href, else `No Link`. The
identifier compared against and written into the state store is solely the
entry's direct `link` field, and when that field is absent the polling step
raises instead of falling back. -/
theorem message_link_fallback_only (e : Entry) (hl : e.link = none) :
    (∀ L rest h, e.links = L :: rest → L.rel = some "alternate" →
        L.type = some "text/html" → L.href = some h → entry_url e = h)
    ∧ (∀ L rest, e.links = L :: rest → firstAltHtml (L :: rest) = none →
        entry_url e = L.href.getD "No Link")
    ∧ (e.links = [] → entry_url e = "No Link")
    ∧ (∀ sendOk f nameFromConfig url st, f.entries.head? = some e →
        pollFeed sendOk (FetchOutcome.ok f) nameFromConfig url st = Except.error ()) := by
  refine ⟨?_, ?_, ?_, ?_⟩
  · intro L rest h hL hrel htype hhref
    simp [entry_url, hl, hL, firstAltHtml, hrel, htype, hhref]
  · intro L rest hL hfa
    simp [entry_url, hl, hL, hfa]
  · intro hL
    simp [entry_url, hl, hL]
  · intro sendOk f nameFromConfig url st he
    exact pollFeed_link_absent sendOk f e nameFromConfig url st he hl

/-- C3 amended witness: the amended statement evaluated at `entryAlt`. -/
theorem message_link_fallback_only_witness :
    entry_url entryAlt = "http://x/alt"
    ∧ pollFeed false (FetchOutcome.ok feedAlt) "Feed X" "http://x" [("http://x", some "old")]
        = Except.error () :=
  ⟨(message_link_fallback_only entryAlt rfl).1
      ⟨some "alternate", some "text/html", some "http://x/alt"⟩ [] "http://x/alt"
      rfl rfl rfl rfl,
   (message_link_fallback_only entryAlt rfl).2.2.2 false feedAlt "Feed X" "http://x"
      [("http://x", some "old")] rfl⟩

/-- C4: if the first polling run for a feed succeeds and a second run fetches
an entry with the same newest identifier, the second run sends no
notification, performs no dict write and no save (its event list is empty),
and leaves the state unchanged. -/
theorem pollFeed_idempotent (sendOk1 sendOk2 : Bool) (f1 f2 : Feed) (e1 e2 : Entry)
    (nameFromConfig url l : String) (st st1 : LastEntries) (evs : List Event)
    (he1 : f1.entries.head? = some e1) (hl1 : e1.link = some l)
    (he2 : f2.entries.head? = some e2) (hl2 : e2.link = some l)
    (h1 : pollFeed sendOk1 (FetchOutcome.ok f1) nameFromConfig url st = Except.ok (st1, evs)) :
    pollFeed sendOk2 (FetchOutcome.ok f2) nameFromConfig url st1 = Except.ok (st1, [])
    ∧ ([] : List Event).countP isSend = 0
    ∧ ([] : List Event).countP isSave = 0
    ∧ ([] : List Event).countP isUpdate = 0 := by
  have hs : dictGet st1 url = some l :=
    pollFeed_stored sendOk1 f1 e1 nameFromConfig url l st st1 evs he1 hl1 h1
  exact ⟨pollFeed_same sendOk2 f2 e2 nameFromConfig url l st1 he2 hl2 hs, rfl, rfl, rfl⟩

/-- C4 witness: two successive runs on `feedB` starting from empty state. -/
theorem pollFeed_idempotent_witness :
    pollFeed true (FetchOutcome.ok feedB) "Feed1" "http://a"
        (dictSet [] "http://a" (some "http://a/2")) = Except.ok
          (dictSet [] "http://a" (some "http://a/2"), [])
    ∧ ([] : List Event).countP isSend = 0
    ∧ ([] : List Event).countP isSave = 0
    ∧ ([] : List Event).countP isUpdate = 0 :=
  pollFeed_idempotent true true feedB feedB entryB entryB "Feed1" "http://a" "http://a/2"
    [] (dictSet [] "http://a" (some "http://a/2"))
    [Event.send (format_feed_message "Feed1" (some feedB) entryB),
     Event.update "http://a" (some "http://a/2"), Event.save]
    rfl rfl rfl rfl rfl

/-- C5 counterexample: priming two feeds that both yield entries produces one
dict write per feed but no save until after both feeds — the run completes,
yet not every segment with an update contains a following save, so state
writes ARE batched across feeds during priming. -/
theorem prime_batched_save_cex :
    (primeRun (fun _ => true) fetchPQ cfgPQ []).map (fun p => p.2.all updatesSaved)
      = Except.ok false := by
  rfl

/-- C5 (amended): in the polling loop every dict write is followed by a
synchronous save within the same feed's step, but during priming no save
happens between feeds: the whole mapping is saved exactly once, after all
feeds, as the final action of the priming pass. -/
theorem save_discipline (sendOk : Bool) (fo : FetchOutcome) (nameFromConfig url : String)
    (st : LastEntries) (sendF : String → Bool) (fetchF : String → FetchOutcome)
    (cfgs : List FeedCfg) (st0 : LastEntries) :
    updatesSaved (eventsOf (pollFeed sendOk fo nameFromConfig url st)) = true
    ∧ (eventsOf (primeFeed sendOk fo nameFromConfig url st)).countP isSave = 0
    ∧ (primeRun sendF fetchF cfgs st0).map
        (fun p => ((p.2.map (fun s => s.countP isSave)).sum, p.2.getLast?))
      = (primeRun sendF fetchF cfgs st0).map (fun _ => (1, some [Event.save])) := by
  refine ⟨?_, ?_, ?_⟩
  · cases h : pollFeed sendOk fo nameFromConfig url st with
    | error e => rfl
    | ok p =>
      obtain ⟨st1, evs⟩ := p
      exact pollFeed_updatesSaved sendOk fo nameFromConfig url st st1 evs h
  · cases h : primeFeed sendOk fo nameFromConfig url st with
    | error e => rfl
    | ok p =>
      obtain ⟨st1, evs⟩ := p
      exact primeFeed_saveCount sendOk fo nameFromConfig url st st1 evs h
  · rw [primeRun]
    cases h : primeAllFeeds sendF fetchF cfgs st0 with
    | error e => rfl
    | ok p =>
      obtain ⟨st1, segs⟩ := p
      have hz : (segs.map (fun s => s.countP isSave)).sum = 0 :=
        primeAllFeeds_saveCount sendF fetchF cfgs st0 st1 segs h
      simp [Except.map, hz, List.countP_cons, isSave]

/-- C6: `load_last_entries` returns the empty mapping when the state file is
absent (`none`) and when its content fails to decode (`some none`), and it is
a total function — on valid content it returns the decoded mapping; no input
makes it raise. -/
theorem load_last_entries_safe :
    load_last_entries none = []
    ∧ load_last_entries (some none) = []
    ∧ ∀ m, load_last_entries (some (some m)) = m :=
  ⟨rfl, rfl, fun _ => rfl⟩

set_option maxRecDepth 4000 in
/-- C7: the formatted message embeds the escape of exactly the first 200
characters of the content preview text: truncation happens before escaping,
a text longer than 200 characters keeps exactly 200 of them, a text of at
most 200 characters is escaped untruncated, and the escaped preview contains
no raw angle bracket. -/
theorem content_preview_truncation (e : Entry) (nameFromConfig : String)
    (feedObj : Option Feed) :
    format_feed_message nameFromConfig feedObj e
      = messageHeader nameFromConfig feedObj e
        ++ escapeAngles ((entry_content e).take 200) ++ "..."
    ∧ (200 < (entry_content e).length → ((entry_content e).take 200).length = 200)
    ∧ ((entry_content e).length ≤ 200 → contentPreview e = escapeAngles (entry_content e))
    ∧ (contentPreview e).toList.all (fun c => c != '<' && c != '>') = true := by
  refine ⟨?_, fun h => string_take_length_of_lt _ h, fun h => ?_, ?_⟩
  · unfold format_feed_message contentPreview
    rfl
  · unfold contentPreview
    rw [string_take_of_le _ h]
  · simp only [contentPreview, escapeAngles, String.toList]
    exact flatMap_escapeChar_all ((entry_content e).take 200).toList

set_option maxRecDepth 4000 in
/-- C7 witness: the truncation facts at a 201-character preview text. -/
theorem content_preview_truncation_witness :
    ((entry_content entryLong).take 200).length = 200
    ∧ contentPreview entryLong = escapeAngles ((entry_content entryLong).take 200)
    ∧ (contentPreview entryLong).toList.all (fun c => c != '<' && c != '>') = true :=
  ⟨(content_preview_truncation entryLong "N" none).2.1 (by decide),
   rfl,
   (content_preview_truncation entryLong "N" none).2.2.2⟩

/-- C8: a fetch exception is converted by `get_feed_and_latest_item` into
`(None, None)` and never propagates; consequently a cycle whose first feed
raises processes the remaining feeds exactly as it would have without that
feed, contributing only an empty event segment for it. -/
theorem fetch_error_isolated (sendF : String → Bool) (fetchF : String → FetchOutcome)
    (c : FeedCfg) (rest : List FeedCfg) (st : LastEntries)
    (hexn : fetchF c.url = FetchOutcome.exn) :
    get_feed_and_latest_item FetchOutcome.exn = (none, none)
    ∧ pollCycle sendF fetchF (c :: rest) st
        = (pollCycle sendF fetchF rest st).map (fun p => (p.1, [] :: p.2)) := by
  refine ⟨rfl, ?_⟩
  have h0 : pollFeed (sendF c.url) (fetchF c.url) c.name c.url st = Except.ok (st, []) := by
    rw [hexn]
    rfl
  cases h2 : pollCycle sendF fetchF rest st with
  | error e => simp [pollCycle, h0, h2, Except.map]
  | ok q =>
    obtain ⟨st2, segs⟩ := q
    simp [pollCycle, h0, h2, Except.map]

/-- C8 witness: with `http://p` raising and `http://q` healthy, the two-feed
cycle equals the one-feed cycle over `http://q` prefixed by an empty segment. -/
theorem fetch_error_isolated_witness :
    get_feed_and_latest_item FetchOutcome.exn = (none, none)
    ∧ pollCycle (fun _ => true) fetchExnP cfgPQ []
        = (pollCycle (fun _ => true) fetchExnP [⟨"Q", "http://q"⟩] []).map
            (fun p => (p.1, [] :: p.2)) :=
  fetch_error_isolated (fun _ => true) fetchExnP ⟨"P", "http://p"⟩ [⟨"Q", "http://q"⟩] []
    rfl

/-- C9: a priming step whose fetch yields no item records an explicit `None`
baseline for the feed (an `update url none` write and nothing else), that
baseline reads back as absent, and a later polling fetch that does yield a
newest item is then treated as new: notified once and persisted. -/
theorem prime_absent_baseline (sendOk sendOk2 : Bool) (fo : FetchOutcome)
    (f2 : Feed) (e2 : Entry) (nameFromConfig url l t : String) (st : LastEntries)
    (hno : (get_feed_and_latest_item fo).2 = none)
    (he2 : f2.entries.head? = some e2) (hl2 : e2.link = some l) (ht2 : e2.title = some t) :
    primeFeed sendOk fo nameFromConfig url st
      = Except.ok (dictSet st url none, [Event.update url none])
    ∧ dictGet (dictSet st url none) url = none
    ∧ pollFeed sendOk2 (FetchOutcome.ok f2) nameFromConfig url (dictSet st url none)
        = Except.ok (dictSet (dictSet st url none) url (some l),
            [Event.send (format_feed_message nameFromConfig (some f2) e2),
             Event.update url (some l), Event.save]) := by
  refine ⟨primeFeed_no_entry sendOk fo nameFromConfig url st hno,
    dictGet_dictSet st url none, ?_⟩
  exact pollFeed_new sendOk2 f2 e2 nameFromConfig url l t (dictSet st url none) he2 hl2 ht2
    (Or.inl (dictGet_dictSet st url none))

/-- C9 witness: an empty feed at priming, then `feedN` at polling. -/
theorem prime_absent_baseline_witness :
    primeFeed true (FetchOutcome.ok feedEmpty) "N" "http://n" []
      = Except.ok (dictSet [] "http://n" none, [Event.update "http://n" none])
    ∧ dictGet (dictSet [] "http://n" none) "http://n" = none
    ∧ pollFeed true (FetchOutcome.ok feedN) "N" "http://n" (dictSet [] "http://n" none)
        = Except.ok (dictSet (dictSet [] "http://n" none) "http://n" (some "http://n/1"),
            [Event.send (format_feed_message "N" (some feedN) entryN),
             Event.update "http://n" (some "http://n/1"), Event.save]) :=
  prime_absent_baseline true true (FetchOutcome.ok feedEmpty) feedN entryN "N" "http://n"
    "http://n/1" "TN" [] rfl rfl rfl rfl

/-- C10: both the priming step and the polling step read the newest entry's
direct `link` field unguardedly to produce the stored identifier: an entry
whose `link` attribute is absent makes either step raise (`Except.error`),
even when its `links` list holds a usable alternate text/html link — the
`No Link` fallback chain exists only inside message formatting
(`entry_url`), never on the identifier path. -/
theorem unguarded_link_read (sendOk : Bool) (f : Feed) (e : Entry)
    (nameFromConfig url : String) (st : LastEntries)
    (he : f.entries.head? = some e) (hl : e.link = none) :
    primeFeed sendOk (FetchOutcome.ok f) nameFromConfig url st = Except.error ()
    ∧ pollFeed sendOk (FetchOutcome.ok f) nameFromConfig url st = Except.error ()
    ∧ (∀ L rest h, e.links = L :: rest → L.rel = some "alternate" →
        L.type = some "text/html" → L.href = some h → entry_url e = h) := by
  refine ⟨primeFeed_link_absent sendOk f e nameFromConfig url st he hl,
    pollFeed_link_absent sendOk f e nameFromConfig url st he hl, ?_⟩
  intro L rest h hL hrel htype hhref
  simp [entry_url, hl, hL, firstAltHtml, hrel, htype, hhref]

/-- C10 witness: the unguarded read at `entryAlt`, whose alternate link is
usable by the formatter but not by the identifier path. -/
theorem unguarded_link_read_witness :
    primeFeed false (FetchOutcome.ok feedAlt) "Feed X" "http://x" [] = Except.error ()
    ∧ pollFeed false (FetchOutcome.ok feedAlt) "Feed X" "http://x" [] = Except.error ()
    ∧ entry_url entryAlt = "http://x/alt" :=
  ⟨(unguarded_link_read false feedAlt entryAlt "Feed X" "http://x" [] rfl rfl).1,
   (unguarded_link_read false feedAlt entryAlt "Feed X" "http://x" [] rfl rfl).2.1,
   (unguarded_link_read false feedAlt entryAlt "Feed X" "http://x" [] rfl rfl).2.2
     ⟨some "alternate", some "text/html", some "http://x/alt"⟩ [] "http://x/alt"
     rfl rfl rfl rfl⟩
